import Mathlib

/-!
Verification development for the booking-review coordination layer of a
tour-booking web application.  The coordinator keeps the bookings cache,
the reviews cache and the remote store consistent: creating a review for
a tour flips the matching booking from the pending-review status to the
reviewed status (locally, then best-effort remotely), and deleting the
review flips it back.

The React hooks read cache state from render-time closures (snapshots)
while dispatches update the store; the embedding mirrors this by reading
all conditions from the initial state argument and threading the store
updates through.  Remote calls are nondeterministic in reality, so each
operation takes explicit outcome parameters for the remote calls it may
issue, and additionally returns the list of remote calls it attempted.
-/

namespace ToursApp

/-- Canonical booking record (id, tour reference and review-related status),
as held in the bookings cache and in the remote store. -/
structure Booking where
  id : String
  tourId : String
  status : String
deriving Repr, DecidableEq

/-- Canonical review record, as produced by the transformReview normalizer
of the reviews service. -/
structure Review where
  id : String
  review : String
  rating : Nat
  tour : String
  userId : String
deriving Repr, DecidableEq

/-- Payload of createReview: tour id, rating and review text. -/
structure CreateReviewData where
  tour : String
  rating : Nat
  review : String
deriving Repr, DecidableEq

/-- Payload of updateReview: optional new rating and review text. -/
structure UpdateReviewData where
  rating : Option Nat := none
  review : Option String := none
deriving Repr, DecidableEq

/-- Reviews State Cache slice: reviews keyed by tour id (an association
list mirrors the tourReviews record), the user-owned reviews, the
currently selected review, and the ui flags. -/
structure ReviewsState where
  tourReviews : List (String × List Review)
  userReviews : List Review
  currentReview : Option Review
  isLoading : Bool
  isSubmitting : Bool
  error : Option String
deriving Repr, DecidableEq

/-- Bookings State Cache slice: the bookings of the current user, the
currently selected booking, and the ui flags. -/
structure BookingsState where
  userBookings : List Booking
  currentBooking : Option Booking
  isLoading : Bool
  isSubmitting : Bool
  error : Option String
deriving Repr, DecidableEq

/-- The remote Tour/Booking/Review store, holding the canonical booking
and review records. -/
structure RemoteStore where
  bookings : List Booking
  reviews : List Review
deriving Repr, DecidableEq

/-- The whole world the coordinator acts on: both local cache slices plus
the remote store. -/
structure AppState where
  reviews : ReviewsState
  bookings : BookingsState
  remote : RemoteStore
deriving Repr, DecidableEq

/-- Uniform structured result returned to the ui layer:
success flag, optional error message, optional review payload. -/
structure OpResult where
  success : Bool
  error : Option String := none
  review : Option Review := none
deriving Repr, DecidableEq

/-- A remote call attempted during an operation (for frame reasoning). -/
inductive RemoteCall where
  | fetchTourReviews (tourId : String)
  | fetchUserReviews
  | createReview (tourId : String)
  | updateReview (reviewId : String)
  | deleteReview (reviewId : String)
  | updateBookingStatus (bookingId : String) (status : String)
deriving Repr, DecidableEq

/-- Whether a remote call is a booking-status write. -/
def RemoteCall.isBookingStatusWrite : RemoteCall → Bool
  | .updateBookingStatus _ _ => true
  | _ => false

/-- Result of one coordinator operation: the structured result handed to
the ui, the resulting state, and the remote calls that were attempted. -/
structure OpOutcome where
  result : OpResult
  state : AppState
  calls : List RemoteCall
deriving Repr, DecidableEq

/-- Lookup of the tourReviews record by tour id. -/
def lookupTour (m : List (String × List Review)) (tourId : String) :
    Option (List Review) :=
  match m with
  | [] => none
  | (k, v) :: rest => if k = tourId then some v else lookupTour rest tourId

/-- Modelled from the spec: reviewsSlice reducer setTourReviews (the slice
module is not part of the excerpt); stores the review list of a tour in
the tourReviews record. -/
def setTourEntry (tourId : String) (reviews : List Review) :
    List (String × List Review) → List (String × List Review)
  | [] => [(tourId, reviews)]
  | (k, v) :: rest =>
      if k = tourId then (k, reviews) :: rest
      else (k, v) :: setTourEntry tourId reviews rest

/-- Modelled from the spec: reviewsSlice reducer clearTourReviews (the
slice module is not part of the excerpt); removes the entry of a tour
from the tourReviews record. -/
def clearTourEntry (tourId : String) (m : List (String × List Review)) :
    List (String × List Review) :=
  m.filter fun e => e.1 ≠ tourId

/-- Apply a status to one booking when its id matches. -/
def setStatusIf (bookingId status : String) (b : Booking) : Booking :=
  if b.id = bookingId then { b with status := status } else b

/-- Modelled from the spec: bookingsSlice reducer updateUserBookingStatus
(the slice module is not part of the excerpt); sets the status of the
booking with the given id. -/
def updateStatus (bookingId status : String) (bs : List Booking) :
    List Booking :=
  bs.map (setStatusIf bookingId status)

/-- findBookingByTourId helper of the hooks: first cached booking whose
tourId matches. -/
def findBookingByTourId (bookings : List Booking) (tourId : String) :
    Option Booking :=
  bookings.find? fun b => b.tourId == tourId

/-- getPendingReviewBookings helper: bookings whose status is
pending-review. -/
def getPendingReviewBookings (bookings : List Booking) : List Booking :=
  bookings.filter fun b => b.status == "pending-review"

/-- getTourBookingStatus helper: status of the first booking for a tour,
if any. -/
def getTourBookingStatus (bookings : List Booking) (tourId : String) :
    Option String :=
  (findBookingByTourId bookings tourId).map Booking.status

/-- hasUserReviewedTour helper: whether the user-reviews cache holds a
review for the tour. -/
def hasUserReviewedTour (userReviews : List Review) (tourId : String) :
    Bool :=
  userReviews.any fun r => r.tour == tourId

/-- loadTourReviews with an explicit snapshot for the warm-cache check
(the hook closure captures the render-time reviews state): when the
snapshot already holds a non-empty list for the tour it returns success
immediately; otherwise it sets the loading flag, clears the error and
fetches the reviews of the tour from the remote store, recording the
fetch attempt. -/
def loadTourReviewsFrom (snapshot : ReviewsState) (tourId : String)
    (fetchOutcome : Except String Unit) (s : AppState) : OpOutcome :=
  match lookupTour snapshot.tourReviews tourId with
  | some (_ :: _) =>
      { result := { success := true }, state := s, calls := [] }
  | _ =>
      let s1 : AppState :=
        { s with reviews := { s.reviews with isLoading := true, error := none } }
      match fetchOutcome with
      | .ok _ =>
          let fetched := s.remote.reviews.filter fun r => r.tour == tourId
          { result := { success := true }
            state :=
              { s1 with reviews :=
                { s1.reviews with
                  tourReviews := setTourEntry tourId fetched s1.reviews.tourReviews
                  isLoading := false } }
            calls := [RemoteCall.fetchTourReviews tourId] }
      | .error msg =>
          { result := { success := false, error := some msg }
            state :=
              { s1 with reviews :=
                { s1.reviews with error := some msg, isLoading := false } }
            calls := [RemoteCall.fetchTourReviews tourId] }

/-- Top-level loadTourReviews of the useReviews hook. -/
def loadTourReviews (tourId : String) (fetchOutcome : Except String Unit)
    (s : AppState) : OpOutcome :=
  loadTourReviewsFrom s.reviews tourId fetchOutcome s

/-- The cross-domain coordination block shared by createReview and
deleteReview: look the tour up in the snapshot bookings cache; when a
booking is found and its status is the expected one, optimistically set
the new status in the local bookings cache and attempt to persist it
remotely (the attempt is recorded; a failure is swallowed). Returns the
new state and the remote calls attempted. -/
def syncBookingStatus (tourId expected newStatus : String)
    (bookingUpdateOk : Bool) (snapshotBookings : List Booking)
    (s : AppState) : AppState × List RemoteCall :=
  match findBookingByTourId snapshotBookings tourId with
  | some booking =>
      if booking.status = expected then
        let s4 : AppState :=
          { s with bookings :=
            { s.bookings with
              userBookings :=
                updateStatus booking.id newStatus s.bookings.userBookings } }
        if bookingUpdateOk then
          ({ s4 with remote :=
              { s4.remote with
                bookings := updateStatus booking.id newStatus s4.remote.bookings } },
           [RemoteCall.updateBookingStatus booking.id newStatus])
        else
          (s4, [RemoteCall.updateBookingStatus booking.id newStatus])
      else (s, [])
  | none => (s, [])

/-- The tour-reviews refresh block shared by the review mutations: when
the snapshot holds an entry for the tour, clear it and re-run
loadTourReviews against the stale snapshot. -/
def refreshTourReviews (snapshot : ReviewsState) (tourId : String)
    (fetchOutcome : Except String Unit) (s : AppState) :
    AppState × List RemoteCall :=
  match lookupTour snapshot.tourReviews tourId with
  | some _ =>
      let s6 : AppState :=
        { s with reviews :=
          { s.reviews with
            tourReviews := clearTourEntry tourId s.reviews.tourReviews } }
      let res := loadTourReviewsFrom snapshot tourId fetchOutcome s6
      (res.state, res.calls)
  | none => (s, [])

/-- loadUserReviews of the useReviews hook: fetches the reviews owned by
the current user from the remote store into the user-reviews cache. -/
def loadUserReviews (currentUserId : String)
    (fetchOutcome : Except String Unit) (s : AppState) : OpOutcome :=
  let s1 : AppState :=
    { s with reviews := { s.reviews with isLoading := true, error := none } }
  match fetchOutcome with
  | .ok _ =>
      let fetched := s.remote.reviews.filter fun r => r.userId == currentUserId
      { result := { success := true }
        state :=
          { s1 with reviews :=
            { s1.reviews with userReviews := fetched, isLoading := false } }
        calls := [RemoteCall.fetchUserReviews] }
  | .error msg =>
      { result := { success := false, error := some msg }
        state :=
          { s1 with reviews :=
            { s1.reviews with error := some msg, isLoading := false } }
        calls := [RemoteCall.fetchUserReviews] }

/-- createReview of the useReviews hook.  Sets the submitting flag and
clears the error; attempts the remote review creation (a failure is
caught and reported as a structured failure); on success appends the new
review to the user-reviews cache, then, when the snapshot bookings cache
holds a booking for the tour in the pending-review status, optimistically
flips that booking to reviewed locally and best-effort persists the flip
remotely, swallowing a remote failure; finally, when the snapshot holds a
tour-reviews entry for the tour, clears it and re-runs loadTourReviews
(against the stale snapshot), and reports success. -/
def createReview (reviewData : CreateReviewData)
    (createOutcome : Except String Review) (bookingUpdateOk : Bool)
    (fetchOutcome : Except String Unit) (s : AppState) : OpOutcome :=
  let s1 : AppState :=
    { s with reviews := { s.reviews with isSubmitting := true, error := none } }
  match createOutcome with
  | .error msg =>
      { result := { success := false, error := some msg }
        state :=
          { s1 with reviews :=
            { s1.reviews with error := some msg, isSubmitting := false } }
        calls := [RemoteCall.createReview reviewData.tour] }
  | .ok newReview =>
      let s2 : AppState :=
        { s1 with remote :=
          { s1.remote with reviews := s1.remote.reviews ++ [newReview] } }
      let s3 : AppState :=
        { s2 with reviews :=
          { s2.reviews with
            userReviews := s2.reviews.userReviews ++ [newReview] } }
      let coord : AppState × List RemoteCall :=
        syncBookingStatus reviewData.tour "pending-review" "reviewed"
          bookingUpdateOk s.bookings.userBookings s3
      let refreshed : AppState × List RemoteCall :=
        refreshTourReviews s.reviews reviewData.tour fetchOutcome coord.1
      { result := { success := true, review := some newReview }
        state :=
          { refreshed.1 with reviews :=
            { refreshed.1.reviews with isSubmitting := false } }
        calls := RemoteCall.createReview reviewData.tour :: coord.2 ++ refreshed.2 }

/-- updateReview of the useReviews hook: attempts the remote update (a
failure is caught and reported as a structured failure); on success
replaces the review in the user-reviews cache, refreshes the currently
selected review when it is the updated one, refreshes the tour-reviews
entry of the tour when present, and reports success.  No booking-status
coordination is performed. -/
def updateReview (reviewId : String) (_updateData : UpdateReviewData)
    (updateOutcome : Except String Review) (fetchOutcome : Except String Unit)
    (s : AppState) : OpOutcome :=
  let s1 : AppState :=
    { s with reviews := { s.reviews with isSubmitting := true, error := none } }
  match updateOutcome with
  | .error msg =>
      { result := { success := false, error := some msg }
        state :=
          { s1 with reviews :=
            { s1.reviews with error := some msg, isSubmitting := false } }
        calls := [RemoteCall.updateReview reviewId] }
  | .ok updatedReview =>
      let s2 : AppState :=
        { s1 with remote :=
          { s1.remote with
            reviews := s1.remote.reviews.map fun r =>
              if r.id == reviewId then updatedReview else r } }
      let s3 : AppState :=
        { s2 with reviews :=
          { s2.reviews with
            userReviews := s2.reviews.userReviews.map fun r =>
              if r.id == updatedReview.id then updatedReview else r } }
      let s4 : AppState :=
        match s.reviews.currentReview with
        | some cr =>
            if cr.id = reviewId then
              { s3 with reviews :=
                { s3.reviews with currentReview := some updatedReview } }
            else s3
        | none => s3
      let refreshed : AppState × List RemoteCall :=
        refreshTourReviews s.reviews updatedReview.tour fetchOutcome s4
      { result := { success := true, review := some updatedReview }
        state :=
          { refreshed.1 with reviews :=
            { refreshed.1.reviews with isSubmitting := false } }
        calls := RemoteCall.updateReview reviewId :: refreshed.2 }

/-- deleteReview of the useReviews hook.  When the review is absent from
the snapshot user-reviews cache the operation fails with a not-found
message without attempting any remote call.  Otherwise it attempts the
remote deletion (a failure is caught and reported as a structured
failure, local caches untouched); on success it removes the review from
the user-reviews cache and from the remote store, then, when the snapshot
bookings cache holds a booking for the tour of the review in the reviewed
status, optimistically flips it back to pending-review locally and
best-effort persists the flip remotely, swallowing a remote failure;
clears the selected review when it is the deleted one, refreshes the
tour-reviews entry when present, and reports success. -/
def deleteReview (reviewId : String) (deleteOutcome : Except String Unit)
    (bookingUpdateOk : Bool) (fetchOutcome : Except String Unit)
    (s : AppState) : OpOutcome :=
  let s1 : AppState :=
    { s with reviews := { s.reviews with isSubmitting := true, error := none } }
  match s.reviews.userReviews.find? (fun r => r.id == reviewId) with
  | none =>
      { result :=
          { success := false, error := some "Review not found in local state" }
        state :=
          { s1 with reviews :=
            { s1.reviews with
              error := some "Review not found in local state"
              isSubmitting := false } }
        calls := [] }
  | some reviewToDelete =>
      match deleteOutcome with
      | .error msg =>
          { result := { success := false, error := some msg }
            state :=
              { s1 with reviews :=
                { s1.reviews with error := some msg, isSubmitting := false } }
            calls := [RemoteCall.deleteReview reviewId] }
      | .ok _ =>
          let s2 : AppState :=
            { s1 with remote :=
              { s1.remote with
                reviews := s1.remote.reviews.filter fun r => r.id != reviewId } }
          let s3 : AppState :=
            { s2 with reviews :=
              { s2.reviews with
                userReviews :=
                  s2.reviews.userReviews.filter fun r => r.id != reviewId } }
          let coord : AppState × List RemoteCall :=
            syncBookingStatus reviewToDelete.tour "reviewed" "pending-review"
              bookingUpdateOk s.bookings.userBookings s3
          let s5 : AppState :=
            match s.reviews.currentReview with
            | some cr =>
                if cr.id = reviewId then
                  { coord.1 with reviews :=
                    { coord.1.reviews with currentReview := none } }
                else coord.1
            | none => coord.1
          let refreshed : AppState × List RemoteCall :=
            refreshTourReviews s.reviews reviewToDelete.tour fetchOutcome s5
          { result := { success := true }
            state :=
              { refreshed.1 with reviews :=
                { refreshed.1.reviews with isSubmitting := false } }
            calls := RemoteCall.deleteReview reviewId :: coord.2 ++ refreshed.2 }

/-- updateBookingStatus of the useBookings hook: attempts the remote
booking-status update; on success mirrors the new status into the
bookings cache; on failure reports a structured failure. -/
def updateBookingStatusOp (bookingId status : String)
    (remoteOutcome : Except String Unit) (s : AppState) : OpOutcome :=
  let s1 : AppState :=
    { s with bookings :=
      { s.bookings with isSubmitting := true, error := none } }
  match remoteOutcome with
  | .ok _ =>
      { result := { success := true }
        state :=
          { s1 with
            remote :=
              { s1.remote with
                bookings := updateStatus bookingId status s1.remote.bookings }
            bookings :=
              { s1.bookings with
                userBookings := updateStatus bookingId status s1.bookings.userBookings
                isSubmitting := false } }
        calls := [RemoteCall.updateBookingStatus bookingId status] }
  | .error msg =>
      { result := { success := false, error := some msg }
        state :=
          { s1 with bookings :=
            { s1.bookings with error := some msg, isSubmitting := false } }
        calls := [RemoteCall.updateBookingStatus bookingId status] }

/-- markBookingAsReviewed of the useBookings hook: requires a cached
booking for the tour in the pending-review status, then delegates to
updateBookingStatus with the reviewed status; otherwise fails without
touching anything. -/
def markBookingAsReviewed (tourId : String)
    (remoteOutcome : Except String Unit) (s : AppState) : OpOutcome :=
  match findBookingByTourId s.bookings.userBookings tourId with
  | none =>
      { result := { success := false, error := some "Booking not found" }
        state := s, calls := [] }
  | some booking =>
      if booking.status ≠ "pending-review" then
        { result :=
            { success := false, error := some "Booking is not pending review" }
          state := s, calls := [] }
      else
        updateBookingStatusOp booking.id "reviewed" remoteOutcome s

/-- markBookingAsPendingReview of the useBookings hook: requires a cached
booking for the tour in the reviewed status, then delegates to
updateBookingStatus with the pending-review status; otherwise fails
without touching anything. -/
def markBookingAsPendingReview (tourId : String)
    (remoteOutcome : Except String Unit) (s : AppState) : OpOutcome :=
  match findBookingByTourId s.bookings.userBookings tourId with
  | none =>
      { result := { success := false, error := some "Booking not found" }
        state := s, calls := [] }
  | some booking =>
      if booking.status ≠ "reviewed" then
        { result := { success := false, error := some "Booking is not reviewed" }
          state := s, calls := [] }
      else
        updateBookingStatusOp booking.id "pending-review" remoteOutcome s

/-! Concrete fixtures used by the witnesses and counterexamples. -/

/-- A booking for tour t1 awaiting a review. -/
def bk1 : Booking :=
  { id := "b1", tourId := "t1", status := "pending-review" }

/-- The same booking after the review was left. -/
def bk1r : Booking :=
  { id := "b1", tourId := "t1", status := "reviewed" }

/-- A review of tour t1 by user u1. -/
def rv1 : Review :=
  { id := "r1", review := "Great tour", rating := 5, tour := "t1", userId := "u1" }

/-- Payload creating rv1. -/
def cd1 : CreateReviewData :=
  { tour := "t1", rating := 5, review := "Great tour" }

/-- An empty reviews slice. -/
def emptyReviews : ReviewsState :=
  { tourReviews := [], userReviews := [], currentReview := none
    isLoading := false, isSubmitting := false, error := none }

/-- World with one booking for t1 in pending-review, mirrored remotely,
and no reviews anywhere. -/
def statePending : AppState :=
  { reviews := emptyReviews
    bookings :=
      { userBookings := [bk1], currentBooking := none
        isLoading := false, isSubmitting := false, error := none }
    remote := { bookings := [bk1], reviews := [] } }

/-- World with the booking for t1 already reviewed, the review rv1 in the
user-reviews cache and in the remote store. -/
def stateReviewed : AppState :=
  { reviews := { emptyReviews with userReviews := [rv1] }
    bookings :=
      { userBookings := [bk1r], currentBooking := none
        isLoading := false, isSubmitting := false, error := none }
    remote := { bookings := [bk1r], reviews := [rv1] } }

/-- World whose tour-reviews cache holds a present but empty entry for
t1 (as left behind by a fetch that returned no reviews). -/
def stateEmptyEntry : AppState :=
  { statePending with reviews :=
    { emptyReviews with tourReviews := [("t1", [])] } }

/-- World with no booking at all. -/
def stateNoBooking : AppState :=
  { reviews := { emptyReviews with userReviews := [rv1] }
    bookings :=
      { userBookings := [], currentBooking := none
        isLoading := false, isSubmitting := false, error := none }
    remote := { bookings := [], reviews := [rv1] } }

/-- An edited version of rv1. -/
def rv1b : Review :=
  { id := "r1", review := "Even better", rating := 4, tour := "t1"
    userId := "u1" }

/-- Payload editing rv1 into rv1b. -/
def ud1 : UpdateReviewData :=
  { rating := some 4, review := some "Even better" }

/-- A booking for tour t2 already reviewed. -/
def bk2r : Booking :=
  { id := "b2", tourId := "t2", status := "reviewed" }

/-- World with one pending-review booking for t1 and one reviewed booking
for t2, mirrored remotely. -/
def stateTwoBookings : AppState :=
  { reviews := emptyReviews
    bookings :=
      { userBookings := [bk1, bk2r], currentBooking := none
        isLoading := false, isSubmitting := false, error := none }
    remote := { bookings := [bk1, bk2r], reviews := [] } }

/-- World whose tour-reviews cache holds a warm (non-empty) entry for
t1. -/
def stateWarm : AppState :=
  { statePending with reviews :=
    { emptyReviews with tourReviews := [("t1", [rv1])] } }

/-! Helper lemmas about the building blocks. -/

theorem find?_map_comm {α : Type} (f : α → α) (p : α → Bool)
    (h : ∀ x, p (f x) = p x) (l : List α) :
    (l.map f).find? p = (l.find? p).map f := by
  induction l with
  | nil => rfl
  | cons x xs ih =>
      simp only [List.map_cons, List.find?_cons, h x]
      cases hp : p x
      · simpa using ih
      · simp

theorem findBooking_updateStatus (bookingId status tourId : String)
    (bs : List Booking) :
    findBookingByTourId (updateStatus bookingId status bs) tourId =
      (findBookingByTourId bs tourId).map (setStatusIf bookingId status) := by
  unfold findBookingByTourId updateStatus
  exact find?_map_comm _ _ (fun x => by unfold setStatusIf; split <;> rfl) bs

theorem setStatusIf_eq (bookingId status : String) (b : Booking)
    (h : b.id = bookingId) :
    setStatusIf bookingId status b = { b with status := status } := by
  unfold setStatusIf
  simp [h]

theorem loadTourReviewsFrom_bookings (snap : ReviewsState) (t : String)
    (f : Except String Unit) (s : AppState) :
    (loadTourReviewsFrom snap t f s).state.bookings = s.bookings := by
  unfold loadTourReviewsFrom
  split
  · rfl
  · split <;> rfl

theorem loadTourReviewsFrom_remote (snap : ReviewsState) (t : String)
    (f : Except String Unit) (s : AppState) :
    (loadTourReviewsFrom snap t f s).state.remote = s.remote := by
  unfold loadTourReviewsFrom
  split
  · rfl
  · split <;> rfl

theorem loadTourReviewsFrom_userReviews (snap : ReviewsState) (t : String)
    (f : Except String Unit) (s : AppState) :
    (loadTourReviewsFrom snap t f s).state.reviews.userReviews =
      s.reviews.userReviews := by
  unfold loadTourReviewsFrom
  split
  · rfl
  · split <;> rfl

theorem loadTourReviewsFrom_currentReview (snap : ReviewsState) (t : String)
    (f : Except String Unit) (s : AppState) :
    (loadTourReviewsFrom snap t f s).state.reviews.currentReview =
      s.reviews.currentReview := by
  unfold loadTourReviewsFrom
  split
  · rfl
  · split <;> rfl

theorem loadTourReviewsFrom_calls (snap : ReviewsState) (t : String)
    (f : Except String Unit) (s : AppState) :
    (loadTourReviewsFrom snap t f s).calls = [] ∨
      (loadTourReviewsFrom snap t f s).calls = [RemoteCall.fetchTourReviews t] := by
  unfold loadTourReviewsFrom
  split
  · exact Or.inl rfl
  · split
    · exact Or.inr rfl
    · exact Or.inr rfl

theorem refreshTourReviews_bookings (snap : ReviewsState) (t : String)
    (f : Except String Unit) (s : AppState) :
    (refreshTourReviews snap t f s).1.bookings = s.bookings := by
  unfold refreshTourReviews
  split
  · rw [loadTourReviewsFrom_bookings]
  · rfl

theorem refreshTourReviews_remote (snap : ReviewsState) (t : String)
    (f : Except String Unit) (s : AppState) :
    (refreshTourReviews snap t f s).1.remote = s.remote := by
  unfold refreshTourReviews
  split
  · rw [loadTourReviewsFrom_remote]
  · rfl

theorem refreshTourReviews_userReviews (snap : ReviewsState) (t : String)
    (f : Except String Unit) (s : AppState) :
    (refreshTourReviews snap t f s).1.reviews.userReviews =
      s.reviews.userReviews := by
  unfold refreshTourReviews
  split
  · rw [loadTourReviewsFrom_userReviews]
  · rfl

theorem refreshTourReviews_currentReview (snap : ReviewsState) (t : String)
    (f : Except String Unit) (s : AppState) :
    (refreshTourReviews snap t f s).1.reviews.currentReview =
      s.reviews.currentReview := by
  unfold refreshTourReviews
  split
  · rw [loadTourReviewsFrom_currentReview]
  · rfl

theorem refreshTourReviews_calls (snap : ReviewsState) (t : String)
    (f : Except String Unit) (s : AppState) :
    (refreshTourReviews snap t f s).2 = [] ∨
      (refreshTourReviews snap t f s).2 = [RemoteCall.fetchTourReviews t] := by
  unfold refreshTourReviews
  split
  · exact loadTourReviewsFrom_calls _ _ _ _
  · exact Or.inl rfl

theorem syncBookingStatus_reviews (t e n : String) (bOk : Bool)
    (snapB : List Booking) (s : AppState) :
    (syncBookingStatus t e n bOk snapB s).1.reviews = s.reviews := by
  unfold syncBookingStatus
  split
  · split
    · split <;> rfl
    · rfl
  · rfl

theorem syncBookingStatus_remote_reviews (t e n : String) (bOk : Bool)
    (snapB : List Booking) (s : AppState) :
    (syncBookingStatus t e n bOk snapB s).1.remote.reviews =
      s.remote.reviews := by
  unfold syncBookingStatus
  split
  · split
    · split <;> rfl
    · rfl
  · rfl

theorem syncBookingStatus_of_none (t e n : String) (bOk : Bool)
    (snapB : List Booking) (s : AppState)
    (h : findBookingByTourId snapB t = none) :
    syncBookingStatus t e n bOk snapB s = (s, []) := by
  unfold syncBookingStatus
  rw [h]

theorem syncBookingStatus_of_wrong (t e n : String) (bOk : Bool)
    (snapB : List Booking) (s : AppState) (b : Booking)
    (h : findBookingByTourId snapB t = some b) (hst : b.status ≠ e) :
    syncBookingStatus t e n bOk snapB s = (s, []) := by
  unfold syncBookingStatus
  rw [h]
  simp [hst]

theorem syncBookingStatus_local (t e n : String) (bOk : Bool)
    (snapB : List Booking) (s : AppState) (b : Booking)
    (h : findBookingByTourId snapB t = some b) (hst : b.status = e) :
    (syncBookingStatus t e n bOk snapB s).1.bookings.userBookings =
      updateStatus b.id n s.bookings.userBookings := by
  unfold syncBookingStatus
  rw [h]
  cases bOk <;> simp [hst]

theorem syncBookingStatus_remote_ok (t e n : String)
    (snapB : List Booking) (s : AppState) (b : Booking)
    (h : findBookingByTourId snapB t = some b) (hst : b.status = e) :
    (syncBookingStatus t e n true snapB s).1.remote.bookings =
      updateStatus b.id n s.remote.bookings := by
  unfold syncBookingStatus
  rw [h]
  simp [hst]

theorem syncBookingStatus_remote_fail (t e n : String)
    (snapB : List Booking) (s : AppState) (b : Booking)
    (h : findBookingByTourId snapB t = some b) (hst : b.status = e) :
    (syncBookingStatus t e n false snapB s).1.remote.bookings =
      s.remote.bookings := by
  unfold syncBookingStatus
  rw [h]
  simp [hst]

theorem syncBookingStatus_calls (t e n : String) (bOk : Bool)
    (snapB : List Booking) (s : AppState) :
    (syncBookingStatus t e n bOk snapB s).2 = [] ∨
      ∃ b, findBookingByTourId snapB t = some b ∧ b.status = e ∧
        (syncBookingStatus t e n bOk snapB s).2 =
          [RemoteCall.updateBookingStatus b.id n] := by
  unfold syncBookingStatus
  rcases h : findBookingByTourId snapB t with _ | b
  · exact Or.inl rfl
  · by_cases hst : b.status = e
    · refine Or.inr ⟨b, rfl, hst, ?_⟩
      cases bOk <;> simp [hst]
    · simp [hst]

/-! Characterization lemmas for the coordinator operations. -/

theorem createReview_error_eq (d : CreateReviewData) (msg : String)
    (bOk : Bool) (fOk : Except String Unit) (s : AppState) :
    createReview d (.error msg) bOk fOk s =
      { result := { success := false, error := some msg }
        state :=
          { s with reviews :=
            { s.reviews with error := some msg, isSubmitting := false } }
        calls := [RemoteCall.createReview d.tour] } := rfl

theorem createReview_ok_result (d : CreateReviewData) (r : Review)
    (bOk : Bool) (fOk : Except String Unit) (s : AppState) :
    (createReview d (.ok r) bOk fOk s).result =
      { success := true, review := some r } := rfl

theorem createReview_ok_userReviews (d : CreateReviewData) (r : Review)
    (bOk : Bool) (fOk : Except String Unit) (s : AppState) :
    (createReview d (.ok r) bOk fOk s).state.reviews.userReviews =
      s.reviews.userReviews ++ [r] := by
  simp only [createReview]
  rw [refreshTourReviews_userReviews, syncBookingStatus_reviews]

theorem createReview_ok_remote_reviews (d : CreateReviewData) (r : Review)
    (bOk : Bool) (fOk : Except String Unit) (s : AppState) :
    (createReview d (.ok r) bOk fOk s).state.remote.reviews =
      s.remote.reviews ++ [r] := by
  simp only [createReview]
  rw [refreshTourReviews_remote, syncBookingStatus_remote_reviews]

theorem syncBookingStatus_of_no_match (t e n : String) (bOk : Bool)
    (snapB : List Booking) (s : AppState)
    (h : ∀ b, findBookingByTourId snapB t = some b → b.status ≠ e) :
    syncBookingStatus t e n bOk snapB s = (s, []) := by
  unfold syncBookingStatus
  rcases hf : findBookingByTourId snapB t with _ | b
  · rfl
  · simp [h b hf]

theorem createReview_ok_frame_no_sync (d : CreateReviewData) (r : Review)
    (bOk : Bool) (fOk : Except String Unit) (s : AppState)
    (h : ∀ b, findBookingByTourId s.bookings.userBookings d.tour = some b →
      b.status ≠ "pending-review") :
    (createReview d (.ok r) bOk fOk s).state.bookings = s.bookings ∧
      (createReview d (.ok r) bOk fOk s).state.remote.bookings =
        s.remote.bookings := by
  constructor
  · simp only [createReview]
    rw [refreshTourReviews_bookings, syncBookingStatus_of_no_match _ _ _ _ _ _ h]
  · simp only [createReview]
    rw [refreshTourReviews_remote, syncBookingStatus_of_no_match _ _ _ _ _ _ h]

theorem createReview_ok_calls_mem (d : CreateReviewData) (r : Review)
    (bOk : Bool) (fOk : Except String Unit) (s : AppState) (c : RemoteCall)
    (hc : c ∈ (createReview d (.ok r) bOk fOk s).calls) :
    c = RemoteCall.createReview d.tour ∨
      (∃ b, findBookingByTourId s.bookings.userBookings d.tour = some b ∧
        b.status = "pending-review" ∧
        c = RemoteCall.updateBookingStatus b.id "reviewed") ∨
      c = RemoteCall.fetchTourReviews d.tour := by
  simp only [createReview] at hc
  rcases List.mem_cons.mp hc with rfl | hc2
  · exact Or.inl rfl
  rcases List.mem_append.mp hc2 with h3 | h4
  · rcases syncBookingStatus_calls d.tour "pending-review" "reviewed" bOk
      s.bookings.userBookings _ with he | ⟨b, hbb, hbs, he⟩ <;> rw [he] at h3
    · cases h3
    · rw [List.mem_singleton] at h3
      exact Or.inr (Or.inl ⟨b, hbb, hbs, h3⟩)
  · rcases refreshTourReviews_calls s.reviews d.tour fOk _ with he | he <;>
      rw [he] at h4
    · cases h4
    · rw [List.mem_singleton] at h4
      exact Or.inr (Or.inr h4)

theorem deleteReview_not_found_eq (rid : String) (dOut : Except String Unit)
    (bOk : Bool) (fOk : Except String Unit) (s : AppState)
    (h : s.reviews.userReviews.find? (fun r => r.id == rid) = none) :
    deleteReview rid dOut bOk fOk s =
      { result :=
          { success := false, error := some "Review not found in local state" }
        state :=
          { s with reviews :=
            { s.reviews with
              error := some "Review not found in local state"
              isSubmitting := false } }
        calls := [] } := by
  unfold deleteReview
  rw [h]

theorem deleteReview_remote_fail_eq (rid msg : String) (bOk : Bool)
    (fOk : Except String Unit) (s : AppState) (rd : Review)
    (h : s.reviews.userReviews.find? (fun r => r.id == rid) = some rd) :
    deleteReview rid (.error msg) bOk fOk s =
      { result := { success := false, error := some msg }
        state :=
          { s with reviews :=
            { s.reviews with error := some msg, isSubmitting := false } }
        calls := [RemoteCall.deleteReview rid] } := by
  unfold deleteReview
  rw [h]

theorem deleteReview_ok_result (rid : String) (bOk : Bool)
    (fOk : Except String Unit) (s : AppState) (rd : Review)
    (h : s.reviews.userReviews.find? (fun r => r.id == rid) = some rd) :
    (deleteReview rid (.ok ()) bOk fOk s).result = { success := true } := by
  unfold deleteReview
  rw [h]

theorem deleteReview_ok_userReviews (rid : String) (bOk : Bool)
    (fOk : Except String Unit) (s : AppState) (rd : Review)
    (h : s.reviews.userReviews.find? (fun r => r.id == rid) = some rd) :
    (deleteReview rid (.ok ()) bOk fOk s).state.reviews.userReviews =
      s.reviews.userReviews.filter (fun x => x.id != rid) := by
  simp only [deleteReview, h]
  rw [refreshTourReviews_userReviews]
  repeat' split
  all_goals rw [syncBookingStatus_reviews]

theorem deleteReview_ok_remote_reviews (rid : String) (bOk : Bool)
    (fOk : Except String Unit) (s : AppState) (rd : Review)
    (h : s.reviews.userReviews.find? (fun r => r.id == rid) = some rd) :
    (deleteReview rid (.ok ()) bOk fOk s).state.remote.reviews =
      s.remote.reviews.filter (fun x => x.id != rid) := by
  simp only [deleteReview, h]
  rw [refreshTourReviews_remote]
  repeat' split
  all_goals rw [syncBookingStatus_remote_reviews]

theorem deleteReview_ok_frame_no_sync (rid : String) (bOk : Bool)
    (fOk : Except String Unit) (s : AppState) (rd : Review)
    (hfind : s.reviews.userReviews.find? (fun r => r.id == rid) = some rd)
    (h : ∀ b, findBookingByTourId s.bookings.userBookings rd.tour = some b →
      b.status ≠ "reviewed") :
    (deleteReview rid (.ok ()) bOk fOk s).state.bookings = s.bookings ∧
      (deleteReview rid (.ok ()) bOk fOk s).state.remote.bookings =
        s.remote.bookings := by
  constructor
  · simp only [deleteReview, hfind]
    rw [refreshTourReviews_bookings]
    repeat' split
    all_goals rw [syncBookingStatus_of_no_match _ _ _ _ _ _ h]
  · simp only [deleteReview, hfind]
    rw [refreshTourReviews_remote]
    repeat' split
    all_goals rw [syncBookingStatus_of_no_match _ _ _ _ _ _ h]

theorem deleteReview_ok_calls_mem (rid : String) (bOk : Bool)
    (fOk : Except String Unit) (s : AppState) (rd : Review) (c : RemoteCall)
    (hfind : s.reviews.userReviews.find? (fun r => r.id == rid) = some rd)
    (hc : c ∈ (deleteReview rid (.ok ()) bOk fOk s).calls) :
    c = RemoteCall.deleteReview rid ∨
      (∃ b, findBookingByTourId s.bookings.userBookings rd.tour = some b ∧
        b.status = "reviewed" ∧
        c = RemoteCall.updateBookingStatus b.id "pending-review") ∨
      c = RemoteCall.fetchTourReviews rd.tour := by
  simp only [deleteReview, hfind] at hc
  rcases List.mem_cons.mp hc with rfl | hc2
  · exact Or.inl rfl
  rcases List.mem_append.mp hc2 with h3 | h4
  · rcases syncBookingStatus_calls rd.tour "reviewed" "pending-review" bOk
      s.bookings.userBookings _ with he | ⟨b, hbb, hbs, he⟩ <;> rw [he] at h3
    · cases h3
    · rw [List.mem_singleton] at h3
      exact Or.inr (Or.inl ⟨b, hbb, hbs, h3⟩)
  · rcases refreshTourReviews_calls s.reviews rd.tour fOk _ with he | he <;>
      rw [he] at h4
    · cases h4
    · rw [List.mem_singleton] at h4
      exact Or.inr (Or.inr h4)

theorem updateReview_error_eq (rid : String) (ud : UpdateReviewData)
    (msg : String) (fOk : Except String Unit) (s : AppState) :
    updateReview rid ud (.error msg) fOk s =
      { result := { success := false, error := some msg }
        state :=
          { s with reviews :=
            { s.reviews with error := some msg, isSubmitting := false } }
        calls := [RemoteCall.updateReview rid] } := rfl

theorem updateReview_ok_result (rid : String) (ud : UpdateReviewData)
    (r : Review) (fOk : Except String Unit) (s : AppState) :
    (updateReview rid ud (.ok r) fOk s).result =
      { success := true, review := some r } := rfl

theorem updateReview_bookings (rid : String) (ud : UpdateReviewData)
    (uo : Except String Review) (fOk : Except String Unit) (s : AppState) :
    (updateReview rid ud uo fOk s).state.bookings = s.bookings := by
  cases uo with
  | error msg => rfl
  | ok r =>
      simp only [updateReview]
      rw [refreshTourReviews_bookings]
      repeat' split
      all_goals rfl

theorem updateReview_remote_bookings (rid : String) (ud : UpdateReviewData)
    (uo : Except String Review) (fOk : Except String Unit) (s : AppState) :
    (updateReview rid ud uo fOk s).state.remote.bookings =
      s.remote.bookings := by
  cases uo with
  | error msg => rfl
  | ok r =>
      simp only [updateReview]
      rw [refreshTourReviews_remote]
      repeat' split
      all_goals rfl

theorem updateReview_ok_remote_reviews (rid : String) (ud : UpdateReviewData)
    (r : Review) (fOk : Except String Unit) (s : AppState) :
    (updateReview rid ud (.ok r) fOk s).state.remote.reviews =
      s.remote.reviews.map (fun x => if x.id == rid then r else x) := by
  simp only [updateReview]
  rw [refreshTourReviews_remote]
  repeat' split
  all_goals rfl

theorem updateReview_ok_userReviews (rid : String) (ud : UpdateReviewData)
    (r : Review) (fOk : Except String Unit) (s : AppState) :
    (updateReview rid ud (.ok r) fOk s).state.reviews.userReviews =
      s.reviews.userReviews.map (fun x => if x.id == r.id then r else x) := by
  simp only [updateReview]
  rw [refreshTourReviews_userReviews]
  repeat' split
  all_goals rfl

theorem updateReview_calls_no_booking_write (rid : String)
    (ud : UpdateReviewData) (uo : Except String Review)
    (fOk : Except String Unit) (s : AppState) :
    ∀ c ∈ (updateReview rid ud uo fOk s).calls,
      c.isBookingStatusWrite = false := by
  intro c hc
  cases uo with
  | error msg =>
      rw [updateReview_error_eq] at hc
      rw [List.mem_singleton] at hc
      subst hc
      rfl
  | ok r =>
      simp only [updateReview] at hc
      rcases List.mem_cons.mp hc with rfl | hc2
      · rfl
      · rcases refreshTourReviews_calls s.reviews r.tour fOk _ with he | he <;>
          rw [he] at hc2
        · cases hc2
        · rw [List.mem_singleton] at hc2
          subst hc2
          rfl

/-! Claim theorems. -/

/-- Claim C1 as frozen is false on the code: in a state whose booking for
tour t1 is cached as pending-review, createReview whose primary call
succeeds but whose secondary remote booking-status update fails still
returns success, yet the remote store still holds the booking in
pending-review, not reviewed. -/
theorem claim1_counterexample :
    (createReview cd1 (.ok rv1) false (.ok ()) statePending).result.success
        = true ∧
      getTourBookingStatus statePending.bookings.userBookings cd1.tour =
        some "pending-review" ∧
      getTourBookingStatus
        (createReview cd1 (.ok rv1) false (.ok ())
          statePending).state.remote.bookings cd1.tour ≠ some "reviewed" := by
  decide

/-- Claim C1 (amended): for every tour with a cached booking in
pending-review whose remote counterpart has the same id, when createReview
succeeds and the secondary remote booking-status update also succeeds, the
operation reports success and the booking for the tour is reviewed in both
the local bookings cache and the remote store. -/
theorem claim1_dual_write (s : AppState) (d : CreateReviewData) (r : Review)
    (b : Booking) (fOk : Except String Unit)
    (hb : findBookingByTourId s.bookings.userBookings d.tour = some b)
    (hst : b.status = "pending-review")
    (hremote : (findBookingByTourId s.remote.bookings d.tour).map Booking.id =
      some b.id) :
    (createReview d (.ok r) true fOk s).result =
        { success := true, review := some r } ∧
      getTourBookingStatus
        (createReview d (.ok r) true fOk s).state.bookings.userBookings d.tour =
        some "reviewed" ∧
      getTourBookingStatus
        (createReview d (.ok r) true fOk s).state.remote.bookings d.tour =
        some "reviewed" := by
  refine ⟨rfl, ?_, ?_⟩
  · have hloc : (createReview d (.ok r) true fOk s).state.bookings.userBookings =
        updateStatus b.id "reviewed" s.bookings.userBookings := by
      simp only [createReview]
      rw [refreshTourReviews_bookings,
        syncBookingStatus_local _ _ _ _ _ _ _ hb hst]
    rw [hloc]
    unfold getTourBookingStatus
    rw [findBooking_updateStatus, hb]
    simp [setStatusIf_eq _ _ _ rfl]
  · obtain ⟨b2, hb2, hid⟩ := Option.map_eq_some'.mp hremote
    have hrem : (createReview d (.ok r) true fOk s).state.remote.bookings =
        updateStatus b.id "reviewed" s.remote.bookings := by
      simp only [createReview]
      rw [refreshTourReviews_remote,
        syncBookingStatus_remote_ok _ _ _ _ _ _ hb hst]
    rw [hrem]
    unfold getTourBookingStatus
    rw [findBooking_updateStatus, hb2]
    simp [setStatusIf_eq _ _ _ hid]

/-- Witness for the amended claim C1 at the concrete pending-review
world. -/
theorem claim1_witness :
    (createReview cd1 (.ok rv1) true (.ok ()) statePending).result =
        { success := true, review := some rv1 } ∧
      getTourBookingStatus
        (createReview cd1 (.ok rv1) true (.ok ())
          statePending).state.bookings.userBookings cd1.tour =
        some "reviewed" ∧
      getTourBookingStatus
        (createReview cd1 (.ok rv1) true (.ok ())
          statePending).state.remote.bookings cd1.tour =
        some "reviewed" :=
  claim1_dual_write statePending cd1 rv1 bk1 (.ok ()) (by decide) (by decide)
    (by decide)

/-- Claim C2 as frozen is false on the code: in a state whose booking for
tour t1 is cached as reviewed and whose review r1 exists, deleteReview
whose primary call succeeds but whose secondary remote booking-status
update fails still returns success, yet the remote store still holds the
booking in reviewed, not pending-review. -/
theorem claim2_counterexample :
    (deleteReview "r1" (.ok ()) false (.ok ()) stateReviewed).result.success
        = true ∧
      getTourBookingStatus stateReviewed.bookings.userBookings "t1" =
        some "reviewed" ∧
      getTourBookingStatus
        (deleteReview "r1" (.ok ()) false (.ok ())
          stateReviewed).state.remote.bookings "t1" ≠
        some "pending-review" := by
  decide

/-- Claim C2 (amended): for every tour with a cached booking in reviewed
whose remote counterpart has the same id, and a cached review for that
tour, when deleteReview succeeds and the secondary remote booking-status
update also succeeds, the operation reports success and the booking for
the tour is pending-review in both the local bookings cache and the
remote store. -/
theorem claim2_reverse_transition (s : AppState) (rid : String) (rd : Review)
    (b : Booking) (fOk : Except String Unit)
    (hfind : s.reviews.userReviews.find? (fun x => x.id == rid) = some rd)
    (hb : findBookingByTourId s.bookings.userBookings rd.tour = some b)
    (hst : b.status = "reviewed")
    (hremote : (findBookingByTourId s.remote.bookings rd.tour).map Booking.id =
      some b.id) :
    (deleteReview rid (.ok ()) true fOk s).result = { success := true } ∧
      getTourBookingStatus
        (deleteReview rid (.ok ()) true fOk s).state.bookings.userBookings
        rd.tour = some "pending-review" ∧
      getTourBookingStatus
        (deleteReview rid (.ok ()) true fOk s).state.remote.bookings rd.tour =
        some "pending-review" := by
  refine ⟨deleteReview_ok_result _ _ _ _ _ hfind, ?_, ?_⟩
  · have hloc : (deleteReview rid (.ok ()) true fOk s).state.bookings.userBookings
        = updateStatus b.id "pending-review" s.bookings.userBookings := by
      simp only [deleteReview, hfind]
      rw [refreshTourReviews_bookings]
      repeat' split
      all_goals rw [syncBookingStatus_local _ _ _ _ _ _ _ hb hst]
    rw [hloc]
    unfold getTourBookingStatus
    rw [findBooking_updateStatus, hb]
    simp [setStatusIf_eq _ _ _ rfl]
  · obtain ⟨b2, hb2, hid⟩ := Option.map_eq_some'.mp hremote
    have hrem : (deleteReview rid (.ok ()) true fOk s).state.remote.bookings =
        updateStatus b.id "pending-review" s.remote.bookings := by
      simp only [deleteReview, hfind]
      rw [refreshTourReviews_remote]
      repeat' split
      all_goals rw [syncBookingStatus_remote_ok _ _ _ _ _ _ hb hst]
    rw [hrem]
    unfold getTourBookingStatus
    rw [findBooking_updateStatus, hb2]
    simp [setStatusIf_eq _ _ _ hid]

/-- Witness for the amended claim C2 at the concrete reviewed world. -/
theorem claim2_witness :
    (deleteReview "r1" (.ok ()) true (.ok ()) stateReviewed).result =
        { success := true } ∧
      getTourBookingStatus
        (deleteReview "r1" (.ok ()) true (.ok ())
          stateReviewed).state.bookings.userBookings "t1" =
        some "pending-review" ∧
      getTourBookingStatus
        (deleteReview "r1" (.ok ()) true (.ok ())
          stateReviewed).state.remote.bookings "t1" =
        some "pending-review" :=
  claim2_reverse_transition stateReviewed "r1" rv1 bk1r (.ok ()) (by decide)
    (by decide) (by decide) (by decide)

/-- Claim C3: whatever the secondary booking-status outcome, a successful
review creation still reports success and the created review is in the
user-reviews cache and in the remote store; a successful review deletion
still reports success and the review is gone from the user-reviews cache
and from the remote store.  The secondary failure never rolls back the
primary change. -/
theorem claim3_secondary_isolation (s : AppState) (d : CreateReviewData)
    (r : Review) (rid : String) (rd : Review) (bOk : Bool)
    (fOk fOk2 : Except String Unit)
    (hfind : s.reviews.userReviews.find? (fun x => x.id == rid) = some rd) :
    ((createReview d (.ok r) bOk fOk s).result.success = true ∧
      r ∈ (createReview d (.ok r) bOk fOk s).state.reviews.userReviews ∧
      r ∈ (createReview d (.ok r) bOk fOk s).state.remote.reviews) ∧
    ((deleteReview rid (.ok ()) bOk fOk2 s).result.success = true ∧
      (∀ x ∈ (deleteReview rid (.ok ()) bOk fOk2 s).state.reviews.userReviews,
        x.id ≠ rid) ∧
      (∀ x ∈ (deleteReview rid (.ok ()) bOk fOk2 s).state.remote.reviews,
        x.id ≠ rid)) := by
  refine ⟨⟨rfl, ?_, ?_⟩, ?_, ?_, ?_⟩
  · rw [createReview_ok_userReviews]
    simp
  · rw [createReview_ok_remote_reviews]
    simp
  · rw [deleteReview_ok_result _ _ _ _ _ hfind]
  · intro x hx
    rw [deleteReview_ok_userReviews _ _ _ _ _ hfind] at hx
    have hxx := (List.mem_filter.mp hx).2
    simpa using hxx
  · intro x hx
    rw [deleteReview_ok_remote_reviews _ _ _ _ _ hfind] at hx
    have hxx := (List.mem_filter.mp hx).2
    simpa using hxx

/-- Witness for claim C3 at the concrete reviewed world with a failing
secondary update. -/
theorem claim3_witness :
    ((createReview cd1 (.ok rv1) false (.ok ()) stateReviewed).result.success
        = true ∧
      rv1 ∈ (createReview cd1 (.ok rv1) false (.ok ())
        stateReviewed).state.reviews.userReviews ∧
      rv1 ∈ (createReview cd1 (.ok rv1) false (.ok ())
        stateReviewed).state.remote.reviews) ∧
    ((deleteReview "r1" (.ok ()) false (.ok ())
        stateReviewed).result.success = true ∧
      (∀ x ∈ (deleteReview "r1" (.ok ()) false (.ok ())
        stateReviewed).state.reviews.userReviews, x.id ≠ "r1") ∧
      (∀ x ∈ (deleteReview "r1" (.ok ()) false (.ok ())
        stateReviewed).state.remote.reviews, x.id ≠ "r1")) :=
  claim3_secondary_isolation stateReviewed cd1 rv1 "r1" rv1 false (.ok ())
    (.ok ()) (by decide)

/-- Claim C4: deleting a review that is absent from the local user-reviews
cache fails with the not-found message, attempts no remote call, and
leaves the review caches, the bookings cache and the remote store
unchanged; and when the remote review deletion itself fails, the
operation aborts with all of those unchanged as well. -/
theorem claim4_delete_abort_frame (s : AppState) (rid1 rid2 msg : String)
    (dOut : Except String Unit) (bOk : Bool) (fOk : Except String Unit)
    (rd : Review)
    (habsent : ∀ x ∈ s.reviews.userReviews, x.id ≠ rid1)
    (hfind : s.reviews.userReviews.find? (fun x => x.id == rid2) = some rd) :
    (deleteReview rid1 dOut bOk fOk s).result =
        { success := false, error := some "Review not found in local state" } ∧
      (deleteReview rid1 dOut bOk fOk s).calls = [] ∧
      (deleteReview rid1 dOut bOk fOk s).state.reviews.userReviews =
        s.reviews.userReviews ∧
      (deleteReview rid1 dOut bOk fOk s).state.reviews.tourReviews =
        s.reviews.tourReviews ∧
      (deleteReview rid1 dOut bOk fOk s).state.reviews.currentReview =
        s.reviews.currentReview ∧
      (deleteReview rid1 dOut bOk fOk s).state.bookings = s.bookings ∧
      (deleteReview rid1 dOut bOk fOk s).state.remote = s.remote ∧
      (deleteReview rid2 (.error msg) bOk fOk s).result =
        { success := false, error := some msg } ∧
      (deleteReview rid2 (.error msg) bOk fOk s).calls =
        [RemoteCall.deleteReview rid2] ∧
      (deleteReview rid2 (.error msg) bOk fOk s).state.reviews.userReviews =
        s.reviews.userReviews ∧
      (deleteReview rid2 (.error msg) bOk fOk s).state.reviews.tourReviews =
        s.reviews.tourReviews ∧
      (deleteReview rid2 (.error msg) bOk fOk s).state.reviews.currentReview =
        s.reviews.currentReview ∧
      (deleteReview rid2 (.error msg) bOk fOk s).state.bookings = s.bookings ∧
      (deleteReview rid2 (.error msg) bOk fOk s).state.remote = s.remote := by
  have hnone : s.reviews.userReviews.find? (fun x => x.id == rid1) = none := by
    rw [List.find?_eq_none]
    intro x hx
    simpa using habsent x hx
  rw [deleteReview_not_found_eq _ _ _ _ _ hnone,
    deleteReview_remote_fail_eq _ _ _ _ _ _ hfind]
  exact ⟨rfl, rfl, rfl, rfl, rfl, rfl, rfl, rfl, rfl, rfl, rfl, rfl, rfl, rfl⟩

/-- Witness for claim C4 at the concrete reviewed world: r9 is absent,
r1 is present and its remote deletion fails. -/
theorem claim4_witness :
    (deleteReview "r9" (.ok ()) true (.ok ()) stateReviewed).result =
        { success := false, error := some "Review not found in local state" } ∧
      (deleteReview "r9" (.ok ()) true (.ok ()) stateReviewed).calls = [] ∧
      (deleteReview "r9" (.ok ()) true (.ok ())
        stateReviewed).state.reviews.userReviews =
        stateReviewed.reviews.userReviews ∧
      (deleteReview "r9" (.ok ()) true (.ok ())
        stateReviewed).state.reviews.tourReviews =
        stateReviewed.reviews.tourReviews ∧
      (deleteReview "r9" (.ok ()) true (.ok ())
        stateReviewed).state.reviews.currentReview =
        stateReviewed.reviews.currentReview ∧
      (deleteReview "r9" (.ok ()) true (.ok ()) stateReviewed).state.bookings =
        stateReviewed.bookings ∧
      (deleteReview "r9" (.ok ()) true (.ok ()) stateReviewed).state.remote =
        stateReviewed.remote ∧
      (deleteReview "r1" (.error "network down") true (.ok ())
        stateReviewed).result =
        { success := false, error := some "network down" } ∧
      (deleteReview "r1" (.error "network down") true (.ok ())
        stateReviewed).calls = [RemoteCall.deleteReview "r1"] ∧
      (deleteReview "r1" (.error "network down") true (.ok ())
        stateReviewed).state.reviews.userReviews =
        stateReviewed.reviews.userReviews ∧
      (deleteReview "r1" (.error "network down") true (.ok ())
        stateReviewed).state.reviews.tourReviews =
        stateReviewed.reviews.tourReviews ∧
      (deleteReview "r1" (.error "network down") true (.ok ())
        stateReviewed).state.reviews.currentReview =
        stateReviewed.reviews.currentReview ∧
      (deleteReview "r1" (.error "network down") true (.ok ())
        stateReviewed).state.bookings = stateReviewed.bookings ∧
      (deleteReview "r1" (.error "network down") true (.ok ())
        stateReviewed).state.remote = stateReviewed.remote :=
  claim4_delete_abort_frame stateReviewed "r9" "r1" "network down" (.ok ())
    true (.ok ()) rv1 (by decide) (by decide)

/-- Claim C5: when no cached booking matches the tour, createReview and
deleteReview complete successfully, issue no booking-status write to the
local cache or the remote store, and report no error. -/
theorem claim5_no_booking_frame (s : AppState) (d : CreateReviewData)
    (r : Review) (rid : String) (rd : Review) (bOk : Bool)
    (fOk fOk2 : Except String Unit)
    (hnb : findBookingByTourId s.bookings.userBookings d.tour = none)
    (hfind : s.reviews.userReviews.find? (fun x => x.id == rid) = some rd)
    (hnb2 : findBookingByTourId s.bookings.userBookings rd.tour = none) :
    ((createReview d (.ok r) bOk fOk s).result =
        { success := true, review := some r } ∧
      (createReview d (.ok r) bOk fOk s).state.bookings = s.bookings ∧
      (createReview d (.ok r) bOk fOk s).state.remote.bookings =
        s.remote.bookings ∧
      ∀ c ∈ (createReview d (.ok r) bOk fOk s).calls,
        c.isBookingStatusWrite = false) ∧
    ((deleteReview rid (.ok ()) bOk fOk2 s).result = { success := true } ∧
      (deleteReview rid (.ok ()) bOk fOk2 s).state.bookings = s.bookings ∧
      (deleteReview rid (.ok ()) bOk fOk2 s).state.remote.bookings =
        s.remote.bookings ∧
      ∀ c ∈ (deleteReview rid (.ok ()) bOk fOk2 s).calls,
        c.isBookingStatusWrite = false) := by
  have hno : ∀ b, findBookingByTourId s.bookings.userBookings d.tour = some b →
      b.status ≠ "pending-review" := by
    intro b hb
    rw [hnb] at hb
    cases hb
  have hno2 : ∀ b, findBookingByTourId s.bookings.userBookings rd.tour = some b
      → b.status ≠ "reviewed" := by
    intro b hb
    rw [hnb2] at hb
    cases hb
  obtain ⟨hfr1, hfr2⟩ := createReview_ok_frame_no_sync d r bOk fOk s hno
  obtain ⟨hdr1, hdr2⟩ := deleteReview_ok_frame_no_sync rid bOk fOk2 s rd hfind hno2
  refine ⟨⟨rfl, hfr1, hfr2, ?_⟩,
    deleteReview_ok_result _ _ _ _ _ hfind, hdr1, hdr2, ?_⟩
  · intro c hc
    rcases createReview_ok_calls_mem d r bOk fOk s c hc with
      rfl | ⟨b, hb, _, _⟩ | rfl
    · rfl
    · rw [hnb] at hb
      cases hb
    · rfl
  · intro c hc
    rcases deleteReview_ok_calls_mem rid bOk fOk2 s rd c hfind hc with
      rfl | ⟨b, hb, _, _⟩ | rfl
    · rfl
    · rw [hnb2] at hb
      cases hb
    · rfl

/-- Witness for claim C5 at the concrete world with no bookings. -/
theorem claim5_witness :
    ((createReview cd1 (.ok rv1) true (.ok ()) stateNoBooking).result =
        { success := true, review := some rv1 } ∧
      (createReview cd1 (.ok rv1) true (.ok ()) stateNoBooking).state.bookings
        = stateNoBooking.bookings ∧
      (createReview cd1 (.ok rv1) true (.ok ())
        stateNoBooking).state.remote.bookings =
        stateNoBooking.remote.bookings ∧
      ∀ c ∈ (createReview cd1 (.ok rv1) true (.ok ()) stateNoBooking).calls,
        c.isBookingStatusWrite = false) ∧
    ((deleteReview "r1" (.ok ()) true (.ok ()) stateNoBooking).result =
        { success := true } ∧
      (deleteReview "r1" (.ok ()) true (.ok ()) stateNoBooking).state.bookings
        = stateNoBooking.bookings ∧
      (deleteReview "r1" (.ok ()) true (.ok ())
        stateNoBooking).state.remote.bookings =
        stateNoBooking.remote.bookings ∧
      ∀ c ∈ (deleteReview "r1" (.ok ()) true (.ok ()) stateNoBooking).calls,
        c.isBookingStatusWrite = false) :=
  claim5_no_booking_frame stateNoBooking cd1 rv1 "r1" rv1 true (.ok ())
    (.ok ()) (by decide) (by decide) (by decide)

/-- Claim C6: when the cached booking for the tour is not in
pending-review, createReview issues no booking-status update at all,
locally or remotely, whatever the primary outcome. -/
theorem claim6_guarded_create (s : AppState) (d : CreateReviewData)
    (co : Except String Review) (bOk : Bool) (fOk : Except String Unit)
    (b : Booking)
    (hb : findBookingByTourId s.bookings.userBookings d.tour = some b)
    (hst : b.status ≠ "pending-review") :
    (createReview d co bOk fOk s).state.bookings = s.bookings ∧
      (createReview d co bOk fOk s).state.remote.bookings =
        s.remote.bookings ∧
      ∀ c ∈ (createReview d co bOk fOk s).calls,
        c.isBookingStatusWrite = false := by
  have hno : ∀ b2, findBookingByTourId s.bookings.userBookings d.tour = some b2
      → b2.status ≠ "pending-review" := by
    intro b2 hb2
    rw [hb] at hb2
    exact Option.some.inj hb2 ▸ hst
  cases co with
  | error msg =>
      refine ⟨rfl, rfl, ?_⟩
      intro c hc
      rw [createReview_error_eq, List.mem_singleton] at hc
      subst hc
      rfl
  | ok r =>
      obtain ⟨h1, h2⟩ := createReview_ok_frame_no_sync d r bOk fOk s hno
      refine ⟨h1, h2, ?_⟩
      intro c hc
      rcases createReview_ok_calls_mem d r bOk fOk s c hc with
        rfl | ⟨b2, hb2, hbs, _⟩ | rfl
      · rfl
      · exact absurd hbs (hno b2 hb2)
      · rfl

/-- Witness for claim C6 at the concrete world whose booking for t1 is
already reviewed. -/
theorem claim6_witness :
    (createReview cd1 (.ok rv1) true (.ok ()) stateReviewed).state.bookings =
        stateReviewed.bookings ∧
      (createReview cd1 (.ok rv1) true (.ok ())
        stateReviewed).state.remote.bookings =
        stateReviewed.remote.bookings ∧
      ∀ c ∈ (createReview cd1 (.ok rv1) true (.ok ()) stateReviewed).calls,
        c.isBookingStatusWrite = false :=
  claim6_guarded_create stateReviewed cd1 (.ok rv1) true (.ok ()) bk1r
    (by decide) (by decide)

/-- Claim C7: updateReview never touches the bookings cache or the remote
booking records and issues no booking-status write; on success it
persists the review into the remote store and replaces it in the
user-reviews cache. -/
theorem claim7_update_frame (s : AppState) (rid : String)
    (ud : UpdateReviewData) (r : Review) (fOk : Except String Unit)
    (uo : Except String Review) :
    (updateReview rid ud uo fOk s).state.bookings = s.bookings ∧
      (updateReview rid ud uo fOk s).state.remote.bookings =
        s.remote.bookings ∧
      (∀ c ∈ (updateReview rid ud uo fOk s).calls,
        c.isBookingStatusWrite = false) ∧
      (updateReview rid ud (.ok r) fOk s).state.remote.reviews =
        s.remote.reviews.map (fun x => if x.id == rid then r else x) ∧
      (updateReview rid ud (.ok r) fOk s).state.reviews.userReviews =
        s.reviews.userReviews.map (fun x => if x.id == r.id then r else x) :=
  ⟨updateReview_bookings rid ud uo fOk s,
    updateReview_remote_bookings rid ud uo fOk s,
    updateReview_calls_no_booking_write rid ud uo fOk s,
    updateReview_ok_remote_reviews rid ud r fOk s,
    updateReview_ok_userReviews rid ud r fOk s⟩

/-- Witness for claim C7 at the concrete reviewed world, editing r1. -/
theorem claim7_witness :
    (updateReview "r1" ud1 (.ok rv1b) (.ok ()) stateReviewed).state.bookings =
        stateReviewed.bookings ∧
      (updateReview "r1" ud1 (.ok rv1b) (.ok ())
        stateReviewed).state.remote.bookings =
        stateReviewed.remote.bookings ∧
      (∀ c ∈ (updateReview "r1" ud1 (.ok rv1b) (.ok ()) stateReviewed).calls,
        c.isBookingStatusWrite = false) ∧
      (updateReview "r1" ud1 (.ok rv1b) (.ok ())
        stateReviewed).state.remote.reviews =
        stateReviewed.remote.reviews.map
          (fun x => if x.id == "r1" then rv1b else x) ∧
      (updateReview "r1" ud1 (.ok rv1b) (.ok ())
        stateReviewed).state.reviews.userReviews =
        stateReviewed.reviews.userReviews.map
          (fun x => if x.id == rv1b.id then rv1b else x) :=
  claim7_update_frame stateReviewed "r1" ud1 rv1b (.ok ()) (.ok rv1b)

/-- Claim C8: every coordinator operation returns the structured result
shape; a primary failure surfaces as success false with the error
message, and a primary success as success true. -/
theorem claim8_structured_results (s : AppState) (d : CreateReviewData)
    (rid tid uid msg : String) (ud : UpdateReviewData) (r : Review)
    (rd : Review) (bOk : Bool) (fOk : Except String Unit)
    (hfind : s.reviews.userReviews.find? (fun x => x.id == rid) = some rd)
    (hcold : lookupTour s.reviews.tourReviews tid = none) :
    (createReview d (.error msg) bOk fOk s).result =
        { success := false, error := some msg } ∧
      (createReview d (.ok r) bOk fOk s).result =
        { success := true, review := some r } ∧
      (updateReview rid ud (.error msg) fOk s).result =
        { success := false, error := some msg } ∧
      (updateReview rid ud (.ok r) fOk s).result =
        { success := true, review := some r } ∧
      (deleteReview rid (.error msg) bOk fOk s).result =
        { success := false, error := some msg } ∧
      (deleteReview rid (.ok ()) bOk fOk s).result = { success := true } ∧
      (loadUserReviews uid (.error msg) s).result =
        { success := false, error := some msg } ∧
      (loadUserReviews uid (.ok ()) s).result = { success := true } ∧
      (loadTourReviews tid (.error msg) s).result =
        { success := false, error := some msg } ∧
      (loadTourReviews tid (.ok ()) s).result = { success := true } := by
  refine ⟨rfl, rfl, rfl, rfl, ?_, ?_, rfl, rfl, ?_, ?_⟩
  · rw [deleteReview_remote_fail_eq _ _ _ _ _ _ hfind]
  · rw [deleteReview_ok_result _ _ _ _ _ hfind]
  · unfold loadTourReviews loadTourReviewsFrom
    rw [hcold]
  · unfold loadTourReviews loadTourReviewsFrom
    rw [hcold]

/-- Witness for claim C8 at the concrete reviewed world. -/
theorem claim8_witness :
    (createReview cd1 (.error "boom") true (.ok ()) stateReviewed).result =
        { success := false, error := some "boom" } ∧
      (createReview cd1 (.ok rv1) true (.ok ()) stateReviewed).result =
        { success := true, review := some rv1 } ∧
      (updateReview "r1" ud1 (.error "boom") (.ok ()) stateReviewed).result =
        { success := false, error := some "boom" } ∧
      (updateReview "r1" ud1 (.ok rv1) (.ok ()) stateReviewed).result =
        { success := true, review := some rv1 } ∧
      (deleteReview "r1" (.error "boom") true (.ok ()) stateReviewed).result =
        { success := false, error := some "boom" } ∧
      (deleteReview "r1" (.ok ()) true (.ok ()) stateReviewed).result =
        { success := true } ∧
      (loadUserReviews "u1" (.error "boom") stateReviewed).result =
        { success := false, error := some "boom" } ∧
      (loadUserReviews "u1" (.ok ()) stateReviewed).result =
        { success := true } ∧
      (loadTourReviews "t9" (.error "boom") stateReviewed).result =
        { success := false, error := some "boom" } ∧
      (loadTourReviews "t9" (.ok ()) stateReviewed).result =
        { success := true } :=
  claim8_structured_results stateReviewed cd1 "r1" "t9" "u1" "boom" ud1 rv1
    rv1 true (.ok ()) (by decide) (by decide)

/-- Claim C9: markBookingAsReviewed issues the remote booking-status
update exactly when a cached booking for the tour is in pending-review,
and markBookingAsPendingReview exactly when it is in reviewed; in every
other case each returns success false with an error message, attempts no
remote call and leaves the whole state unchanged. -/
theorem claim9_mark_guards (s : AppState) (tP tN tW tR tV : String)
    (ro : Except String Unit) (bp bw br bv : Booking)
    (h1 : findBookingByTourId s.bookings.userBookings tP = some bp)
    (h1s : bp.status = "pending-review")
    (h2 : findBookingByTourId s.bookings.userBookings tN = none)
    (h3 : findBookingByTourId s.bookings.userBookings tW = some bw)
    (h3s : bw.status ≠ "pending-review")
    (h4 : findBookingByTourId s.bookings.userBookings tR = some br)
    (h4s : br.status = "reviewed")
    (h5 : findBookingByTourId s.bookings.userBookings tV = some bv)
    (h5s : bv.status ≠ "reviewed") :
    (markBookingAsReviewed tP ro s).calls =
        [RemoteCall.updateBookingStatus bp.id "reviewed"] ∧
      markBookingAsReviewed tN ro s =
        { result := { success := false, error := some "Booking not found" }
          state := s, calls := [] } ∧
      markBookingAsReviewed tW ro s =
        { result :=
            { success := false, error := some "Booking is not pending review" }
          state := s, calls := [] } ∧
      (markBookingAsPendingReview tR ro s).calls =
        [RemoteCall.updateBookingStatus br.id "pending-review"] ∧
      markBookingAsPendingReview tN ro s =
        { result := { success := false, error := some "Booking not found" }
          state := s, calls := [] } ∧
      markBookingAsPendingReview tV ro s =
        { result :=
            { success := false, error := some "Booking is not reviewed" }
          state := s, calls := [] } := by
  refine ⟨?_, ?_, ?_, ?_, ?_, ?_⟩
  · simp only [markBookingAsReviewed, h1]
    rw [if_neg (by simp [h1s])]
    unfold updateBookingStatusOp
    cases ro <;> rfl
  · simp only [markBookingAsReviewed, h2]
  · simp only [markBookingAsReviewed, h3]
    rw [if_pos h3s]
  · simp only [markBookingAsPendingReview, h4]
    rw [if_neg (by simp [h4s])]
    unfold updateBookingStatusOp
    cases ro <;> rfl
  · simp only [markBookingAsPendingReview, h2]
  · simp only [markBookingAsPendingReview, h5]
    rw [if_pos h5s]

/-- Witness for claim C9 at the concrete two-booking world. -/
theorem claim9_witness :
    (markBookingAsReviewed "t1" (.ok ()) stateTwoBookings).calls =
        [RemoteCall.updateBookingStatus bk1.id "reviewed"] ∧
      markBookingAsReviewed "t9" (.ok ()) stateTwoBookings =
        { result := { success := false, error := some "Booking not found" }
          state := stateTwoBookings, calls := [] } ∧
      markBookingAsReviewed "t2" (.ok ()) stateTwoBookings =
        { result :=
            { success := false, error := some "Booking is not pending review" }
          state := stateTwoBookings, calls := [] } ∧
      (markBookingAsPendingReview "t2" (.ok ()) stateTwoBookings).calls =
        [RemoteCall.updateBookingStatus bk2r.id "pending-review"] ∧
      markBookingAsPendingReview "t9" (.ok ()) stateTwoBookings =
        { result := { success := false, error := some "Booking not found" }
          state := stateTwoBookings, calls := [] } ∧
      markBookingAsPendingReview "t1" (.ok ()) stateTwoBookings =
        { result :=
            { success := false, error := some "Booking is not reviewed" }
          state := stateTwoBookings, calls := [] } :=
  claim9_mark_guards stateTwoBookings "t1" "t9" "t2" "t2" "t1" (.ok ())
    bk1 bk2r bk2r bk1 (by decide) (by decide) (by decide) (by decide)
    (by decide) (by decide) (by decide) (by decide) (by decide)

/-- Claim C10 as frozen is false on the code in its final clause: in a
world whose tour-reviews cache holds a present but empty entry for t1
(nothing was cleared), loadTourReviews still issues a fresh remote
fetch. -/
theorem claim10_counterexample :
    lookupTour stateEmptyEntry.reviews.tourReviews "t1" = some [] ∧
      (loadTourReviews "t1" (.ok ()) stateEmptyEntry).calls =
        [RemoteCall.fetchTourReviews "t1"] := by
  decide

/-- Claim C10 (amended): with a non-empty cached review list for the
tour, loadTourReviews returns success immediately, issues no remote
fetch and leaves the state unchanged, so calling it twice equals calling
it once; and a fresh fetch is issued only when the cache entry for the
tour is absent or empty. -/
theorem claim10_warm_idempotent (s s2 : AppState) (t t2 : String)
    (f f2 f3 : Except String Unit) (l : List Review)
    (hw : lookupTour s.reviews.tourReviews t = some l) (hne : l ≠ []) :
    loadTourReviews t f s =
        { result := { success := true }, state := s, calls := [] } ∧
      loadTourReviews t f2 ((loadTourReviews t f s).state) =
        loadTourReviews t f s ∧
      ((loadTourReviews t2 f3 s2).calls ≠ [] →
        lookupTour s2.reviews.tourReviews t2 = none ∨
          lookupTour s2.reviews.tourReviews t2 = some []) := by
  obtain ⟨a, as, rfl⟩ : ∃ a as, l = a :: as := by
    cases l with
    | nil => exact absurd rfl hne
    | cons a as => exact ⟨a, as, rfl⟩
  have h1 : loadTourReviews t f s =
      { result := { success := true }, state := s, calls := [] } := by
    unfold loadTourReviews loadTourReviewsFrom
    rw [hw]
  have h2 : loadTourReviews t f2 s =
      { result := { success := true }, state := s, calls := [] } := by
    unfold loadTourReviews loadTourReviewsFrom
    rw [hw]
  refine ⟨h1, ?_, ?_⟩
  · simp only [h1]
    rw [h2]
  · intro hcalls
    rcases hl2 : lookupTour s2.reviews.tourReviews t2 with _ | l2
    · exact Or.inl rfl
    · cases l2 with
      | nil => exact Or.inr rfl
      | cons b bs =>
          exfalso
          apply hcalls
          unfold loadTourReviews loadTourReviewsFrom
          rw [hl2]

/-- Witness for the amended claim C10 at the concrete warm world, with
the empty-entry world instantiating the fetch characterization. -/
theorem claim10_witness :
    loadTourReviews "t1" (.ok ()) stateWarm =
        { result := { success := true }, state := stateWarm, calls := [] } ∧
      loadTourReviews "t1" (.error "boom")
          ((loadTourReviews "t1" (.ok ()) stateWarm).state) =
        loadTourReviews "t1" (.ok ()) stateWarm ∧
      ((loadTourReviews "t1" (.ok ()) stateEmptyEntry).calls ≠ [] →
        lookupTour stateEmptyEntry.reviews.tourReviews "t1" = none ∨
          lookupTour stateEmptyEntry.reviews.tourReviews "t1" = some []) :=
  claim10_warm_idempotent stateWarm stateEmptyEntry "t1" "t1" (.ok ())
    (.error "boom") (.ok ()) [rv1] (by decide) (by decide)

end ToursApp
